import Mathlib

/-!
Shallow embedding of the free-openai-to-railway proxy.

The repository contains five near-identical programs:
  * variant A: the first program in `src/src/index.js` (lines 1-352),
  * variant B: the second program in `src/src/index.js` (lines 353-612),
  * variant C: the first TypeScript program in `src/unnamed/part_000` (lines 88-729),
  * variant D: the second TypeScript program in `src/unnamed/part_000` (lines 730-1333),
  * variant E: the TypeScript program in `src/unnamed/part_001`.

Each program holds a fixed provider registry and a `tryProviders` fallback
router, plus Express endpoints.  Provider handlers perform network I/O; the
embedding abstracts a handler invocation as an oracle (`HandlerEnv`) that, for
a provider name, a message list and an optional model, yields the behaviour of
the returned promise: the settle time in milliseconds and either a resolved
string or a rejection message.  `Promise.race` with the `setTimeout` rejection
is the function `race`: the handler's settlement wins exactly when it is
strictly earlier than the timeout.
-/

deriving instance DecidableEq for Except

/-- JavaScript's `String.prototype.trim`, written structurally on the
character list so that it evaluates inside the kernel (Lean's own
`String.trim` is defined through `Substring` position loops that do not
reduce definitionally).  It strips leading and trailing whitespace. -/
def jsTrim (s : String) : String :=
  ⟨((s.data.dropWhile Char.isWhitespace).reverse.dropWhile Char.isWhitespace).reverse⟩

/-- JavaScript's `String.prototype.toLowerCase` for the ASCII provider names,
written structurally on the character list. -/
def jsToLower (s : String) : String := ⟨s.data.map Char.toLower⟩

/-- Whether `needle` starts `hay` (on character lists). -/
def startsWithL : List Char → List Char → Bool
  | [], _ => true
  | _ :: _, [] => false
  | a :: as, b :: bs => a = b && startsWithL as bs

/-- Whether `needle` occurs in `hay` (on character lists). -/
def occursL (needle : List Char) : List Char → Bool
  | [] => startsWithL needle []
  | h :: t => startsWithL needle (h :: t) || occursL needle t

/-- Whether the string `needle` occurs as a substring of `hay`. -/
def occursIn (needle hay : String) : Bool := occursL needle.data hay.data

/-- A chat message, as in the `Message` interface of the TypeScript variants:
a role and a content string. -/
structure Message where
  role : String
  content : String
deriving DecidableEq

/-- A registry entry.  Variants A-D declare `name`, `models`, `enabled`,
`priority` (a number) and a handler; variant E's `Provider` interface
(part_001 lines 25-30) has no `priority` field, so the unified record makes
the priority optional: entries of the variant-E registry carry `none`
(reading `p.priority` on them in JS would give `undefined`), entries of the
other registries carry `some k`.  Handlers are not stored in the record; they
are abstracted by `HandlerEnv`. -/
structure Provider where
  name : String
  models : List String
  enabled : Bool
  priority : Option Int
deriving DecidableEq

/-- The behaviour of one handler invocation: the promise settles `delay`
milliseconds after the call, either resolving with a string or rejecting
with an error message. -/
inductive HandlerBehavior where
  | returns (delay : Nat) (value : String)
  | throws (delay : Nat) (msg : String)
deriving DecidableEq

/-- The settle time of a handler invocation. -/
def HandlerBehavior.delay : HandlerBehavior → Nat
  | .returns d _ => d
  | .throws d _ => d

/-- Oracle for handler invocations: provider name, messages, optional model
give the behaviour of the handler's promise. -/
def HandlerEnv : Type := String → List Message → Option String → HandlerBehavior

/-- `Promise.race([handler(...), rejectAfter(timeoutMs, timeoutMsg)])`:
the handler's settlement is observed iff it is strictly earlier than the
timeout rejection; otherwise the race rejects with the timeout message. -/
def race (timeoutMs : Nat) (timeoutMsg : String) (b : HandlerBehavior) : Except String String :=
  match b with
  | .returns d v => if d < timeoutMs then Except.ok v else Except.error timeoutMsg
  | .throws d m => if d < timeoutMs then Except.error m else Except.error timeoutMsg

/-- A plain `await provider.handler(...)` with no race (variant D's loop,
part_000 lines 1084-1098): the settlement is observed whatever its delay.
(Variant D's handlers call `fetchWithTimeout`, but that aborts only the
`fetch` promise itself; reading the body via `response.json()` or
`response.text()` is unbounded, so the handler may settle at any time.) -/
def noRace (b : HandlerBehavior) : Except String String :=
  match b with
  | .returns _ v => Except.ok v
  | .throws _ m => Except.error m

/-- Priority key used by the comparator `(a, b) => a.priority - b.priority`.
All providers of the sorted registries (variants A-D) carry `some k`, so the
default is never exercised there. -/
def prioKey (p : Provider) : Int := p.priority.getD 0

/-- Comparison relation underlying the JS sort comparator. -/
def prioLe (p q : Provider) : Prop := prioKey p ≤ prioKey q

instance : DecidableRel prioLe := fun p q => Int.decLe (prioKey p) (prioKey q)

instance : IsTotal Provider prioLe := ⟨fun p q => Int.le_total (prioKey p) (prioKey q)⟩

instance : IsTrans Provider prioLe :=
  ⟨fun _ _ _ h h' => Int.le_trans h h'⟩

/-- `array.sort((a, b) => a.priority - b.priority)`: JavaScript's sort is
stable, so with this comparator it is a stable sort in ascending priority
order, which insertion sort with `≤` implements. -/
def sortByPriority (l : List Provider) : List Provider := List.insertionSort prioLe l

-- ===========================================================
-- Variant A: registry (src/src/index.js lines 12-133)
-- ===========================================================

/-- Variant A registry, `providers` in src/src/index.js lines 12-133. -/
def providersA : List Provider :=
  [ ⟨"DeepInfra",
      ["meta-llama/Meta-Llama-3.1-70B-Instruct", "mistralai/Mixtral-8x7B-Instruct-v0.1"],
      true, some 1⟩,
    ⟨"Together",
      ["mistralai/Mixtral-8x7B-Instruct-v0.1", "meta-llama/Llama-2-70b-chat-hf"],
      true, some 2⟩,
    ⟨"HuggingFace",
      ["mistralai/Mixtral-8x7B-Instruct-v0.1", "meta-llama/Llama-2-70b-chat-hf"],
      true, some 3⟩,
    ⟨"Groq",
      ["llama-3.1-70b-versatile", "mixtral-8x7b-32768", "gemma-7b-it"],
      true, some 4⟩,
    ⟨"Phind", ["Phind-70B", "gpt-4"], true, some 5⟩,
    ⟨"Blackbox", ["blackbox", "gpt-4o"], true, some 6⟩,
    ⟨"Cohere", ["command", "command-light"], true, some 7⟩ ]

/-- The enabled providers of variant A in the order the router visits them:
`providers.filter(p => p.enabled).sort((a, b) => a.priority - b.priority)`
(src/src/index.js line 140). -/
def sortedEnabledA : List Provider := sortByPriority (providersA.filter (·.enabled))

/-- One raced attempt of variant A (src/src/index.js lines 147-150):
`Promise.race([provider.handler(messages, model), rejectAfter(30000, 'Timeout')])`. -/
def attemptA (env : HandlerEnv) (msgs : List Message) (model : Option String)
    (p : Provider) : Except String String :=
  race 30000 "Timeout" (env p.name msgs model)

/-- Whether variant A's loop accepts a resolved value:
`if (result && result.trim().length > 0)` (src/src/index.js line 152). -/
def acceptA (r : String) : Bool := jsTrim r != ""

/-- Variant A's aggregate failure message (src/src/index.js line 163). -/
def aggA (errors : List String) : String :=
  "Todos os " ++ toString errors.length ++ " providers falharam:\n"
    ++ String.intercalate "\n" errors

/-- The loop body of variant A's `tryProviders` (src/src/index.js lines
143-163), instrumented with the list of provider names whose handler the loop
invoked, in invocation order.  A raced attempt that resolves to an accepted
(non-whitespace) string returns it at once; an attempt that resolves to a
rejected (empty/whitespace) string is skipped silently; a throwing or timed
out attempt pushes `provider.name + ": " + message` onto `errors`; when the
list is exhausted the aggregate error is thrown. -/
def goA (env : HandlerEnv) (msgs : List Message) (model : Option String) :
    List Provider → List String → Except String String × List String
  | [], errors => (Except.error (aggA errors), [])
  | p :: rest, errors =>
    match attemptA env msgs model p with
    | Except.ok r =>
      if acceptA r then (Except.ok r, [p.name])
      else
        let x := goA env msgs model rest errors
        (x.1, p.name :: x.2)
    | Except.error m =>
      let x := goA env msgs model rest (errors ++ [p.name ++ ": " ++ m])
      (x.1, p.name :: x.2)

/-- Variant A's `tryProviders` with its invocation trace. -/
def tryProvidersARun (env : HandlerEnv) (msgs : List Message) (model : Option String) :
    Except String String × List String :=
  goA env msgs model sortedEnabledA []

/-- Variant A's `tryProviders` (src/src/index.js lines 139-164). -/
def tryProvidersA (env : HandlerEnv) (msgs : List Message) (model : Option String) :
    Except String String :=
  (tryProvidersARun env msgs model).1

/-- Whether variant A's router would stop at provider `p`: the raced attempt
resolves and the value passes the non-whitespace check. -/
def succeedsA (env : HandlerEnv) (msgs : List Message) (model : Option String)
    (p : Provider) : Bool :=
  match attemptA env msgs model p with
  | Except.ok r => acceptA r
  | Except.error _ => false

/-- Whether an attempt outcome is a rejection. -/
def isErr (r : Except String String) : Bool :=
  match r with
  | Except.error _ => true
  | Except.ok _ => false

/-- The rejection message of an attempt outcome (junk on success). -/
def errMsgOf (r : Except String String) : String :=
  match r with
  | Except.error m => m
  | Except.ok _ => ""

/-- The error entries variant A collects over a provider list when no
provider succeeds: one entry per throwing provider, in order, of the form
`name + ": " + message`. -/
def failEntriesA (env : HandlerEnv) (msgs : List Message) (model : Option String)
    (l : List Provider) : List String :=
  (l.filter (fun p => isErr (attemptA env msgs model p))).map
    (fun p => p.name ++ ": " ++ errMsgOf (attemptA env msgs model p))

-- ===========================================================
-- Variant B: registry and router (src/src/index.js lines 369-510)
-- ===========================================================

/-- Variant B registry, `providers` in src/src/index.js lines 369-486. -/
def providersB : List Provider :=
  [ ⟨"DeepInfra",
      ["meta-llama/Meta-Llama-3.1-70B-Instruct", "mistralai/Mixtral-8x7B-Instruct-v0.1"],
      true, some 1⟩,
    ⟨"Together",
      ["mistralai/Mixtral-8x7B-Instruct-v0.1", "meta-llama/Llama-2-70b-chat-hf"],
      true, some 2⟩,
    ⟨"HuggingFace", ["mistralai/Mixtral-8x7B-Instruct-v0.1"], true, some 3⟩,
    ⟨"Groq", ["llama-3.1-70b-versatile", "mixtral-8x7b-32768"], true, some 4⟩,
    ⟨"Phind", ["Phind-70B"], true, some 5⟩,
    ⟨"Blackbox", ["blackbox"], true, some 6⟩,
    ⟨"Cohere", ["command"], true, some 7⟩ ]

/-- The enabled providers of variant B in visiting order (line 490). -/
def sortedEnabledB : List Provider := sortByPriority (providersB.filter (·.enabled))

/-- One raced attempt of variant B (src/src/index.js lines 495-498): the
timeout here is 25000 ms, not 30000 ms. -/
def attemptB (env : HandlerEnv) (msgs : List Message) (model : Option String)
    (p : Provider) : Except String String :=
  race 25000 "Timeout" (env p.name msgs model)

/-- The loop of variant B's `tryProviders` (src/src/index.js lines 492-509).
Variant B accepts with the same `result && result.trim().length > 0` check as
variant A (line 500), but it collects no errors: failures are only logged,
and exhaustion throws the fixed message `'All providers failed'` (line 509). -/
def goB (env : HandlerEnv) (msgs : List Message) (model : Option String) :
    List Provider → Except String String × List String
  | [] => (Except.error "All providers failed", [])
  | p :: rest =>
    match attemptB env msgs model p with
    | Except.ok r =>
      if acceptA r then (Except.ok r, [p.name])
      else
        let x := goB env msgs model rest
        (x.1, p.name :: x.2)
    | Except.error _ =>
      let x := goB env msgs model rest
      (x.1, p.name :: x.2)

/-- Variant B's `tryProviders` with its invocation trace. -/
def tryProvidersBRun (env : HandlerEnv) (msgs : List Message) (model : Option String) :
    Except String String × List String :=
  goB env msgs model sortedEnabledB

/-- Variant B's `tryProviders` (src/src/index.js lines 489-510). -/
def tryProvidersB (env : HandlerEnv) (msgs : List Message) (model : Option String) :
    Except String String :=
  (tryProvidersBRun env msgs model).1

/-- Whether variant B's router would stop at provider `p`. -/
def succeedsB (env : HandlerEnv) (msgs : List Message) (model : Option String)
    (p : Provider) : Bool :=
  match attemptB env msgs model p with
  | Except.ok r => acceptA r
  | Except.error _ => false

-- ===========================================================
-- Variant C: registry and router (src/unnamed/part_000 lines 117-415)
-- ===========================================================

/-- Variant C registry, `providers` in src/unnamed/part_000 lines 369-377
(entries defined at lines 130-366). -/
def providersC : List Provider :=
  [ ⟨"DeepInfra",
      ["meta-llama/Meta-Llama-3.1-70B-Instruct", "meta-llama/Meta-Llama-3.1-8B-Instruct",
       "mistralai/Mixtral-8x7B-Instruct-v0.1", "mistralai/Mistral-7B-Instruct-v0.3"],
      true, some 1⟩,
    ⟨"HuggingFace",
      ["mistralai/Mixtral-8x7B-Instruct-v0.1", "meta-llama/Llama-2-70b-chat-hf",
       "microsoft/phi-2"],
      true, some 2⟩,
    ⟨"Together",
      ["mistralai/Mixtral-8x7B-Instruct-v0.1", "meta-llama/Llama-2-70b-chat-hf",
       "togethercomputer/RedPajama-INCITE-7B-Chat"],
      true, some 3⟩,
    ⟨"Groq",
      ["llama-3.1-70b-versatile", "llama-3.1-8b-instant", "mixtral-8x7b-32768", "gemma-7b-it"],
      true, some 4⟩,
    ⟨"Phind", ["Phind-70B", "gpt-4", "gpt-3.5-turbo"], true, some 5⟩,
    ⟨"Blackbox", ["blackbox", "gpt-4o", "claude-3.5-sonnet"], true, some 6⟩,
    ⟨"Airforce", ["gpt-4", "gpt-3.5-turbo", "llama-3-70b", "claude-3-opus"], true, some 7⟩ ]

/-- The enabled providers of variant C in visiting order (lines 384-386). -/
def sortedEnabledC : List Provider := sortByPriority (providersC.filter (·.enabled))

/-- One raced attempt of variant C (part_000 lines 395-400): 30000 ms, and
the rejection message is `'Timeout after 30s'`. -/
def attemptC (env : HandlerEnv) (msgs : List Message) (model : Option String)
    (p : Provider) : Except String String :=
  race 30000 "Timeout after 30s" (env p.name msgs model)

/-- Variant C's acceptance check `if (result && result.length > 0)`
(part_000 line 402): plain non-emptiness, without trimming. -/
def acceptC (r : String) : Bool := r != ""

/-- Variant C's aggregate failure message (part_000 line 414). -/
def aggC (errors : List String) : String :=
  "All " ++ toString errors.length ++ " providers failed:\n"
    ++ String.intercalate "\n" errors

/-- The loop of variant C's `tryProviders` (part_000 lines 391-414). -/
def goC (env : HandlerEnv) (msgs : List Message) (model : Option String) :
    List Provider → List String → Except String String × List String
  | [], errors => (Except.error (aggC errors), [])
  | p :: rest, errors =>
    match attemptC env msgs model p with
    | Except.ok r =>
      if acceptC r then (Except.ok r, [p.name])
      else
        let x := goC env msgs model rest errors
        (x.1, p.name :: x.2)
    | Except.error m =>
      let x := goC env msgs model rest (errors ++ [p.name ++ ": " ++ m])
      (x.1, p.name :: x.2)

/-- Variant C's `tryProviders` with its invocation trace. -/
def tryProvidersCRun (env : HandlerEnv) (msgs : List Message) (model : Option String) :
    Except String String × List String :=
  goC env msgs model sortedEnabledC []

/-- Variant C's `tryProviders` (part_000 lines 383-415). -/
def tryProvidersC (env : HandlerEnv) (msgs : List Message) (model : Option String) :
    Except String String :=
  (tryProvidersCRun env msgs model).1

-- ===========================================================
-- Variant D: registry and router (src/unnamed/part_000 lines 761-1102)
-- ===========================================================

/-- Variant D registry, `providers` in src/unnamed/part_000 lines 1063-1071
(entries defined at lines 805-1060). -/
def providersD : List Provider :=
  [ ⟨"DeepInfra",
      ["meta-llama/Meta-Llama-3.1-70B-Instruct", "meta-llama/Meta-Llama-3.1-8B-Instruct",
       "mistralai/Mixtral-8x7B-Instruct-v0.1", "mistralai/Mistral-7B-Instruct-v0.3"],
      true, some 1⟩,
    ⟨"Together",
      ["mistralai/Mixtral-8x7B-Instruct-v0.1", "meta-llama/Llama-2-70b-chat-hf",
       "NousResearch/Nous-Hermes-2-Mixtral-8x7B-DPO"],
      true, some 2⟩,
    ⟨"HuggingFace",
      ["mistralai/Mixtral-8x7B-Instruct-v0.1", "meta-llama/Llama-2-70b-chat-hf",
       "microsoft/phi-2"],
      true, some 3⟩,
    ⟨"Groq",
      ["llama-3.1-70b-versatile", "llama-3.1-8b-instant", "mixtral-8x7b-32768", "gemma-7b-it"],
      true, some 4⟩,
    ⟨"Phind", ["Phind-70B", "gpt-4", "gpt-3.5-turbo"], true, some 5⟩,
    ⟨"Blackbox", ["blackbox", "gpt-4o", "claude-3.5-sonnet"], true, some 6⟩,
    ⟨"Cohere", ["command", "command-light", "command-nightly"], true, some 7⟩ ]

/-- The enabled providers of variant D in visiting order (lines 1078-1080). -/
def sortedEnabledD : List Provider := sortByPriority (providersD.filter (·.enabled))

/-- One attempt of variant D (part_000 line 1088): the handler is awaited
directly, with no `Promise.race` against a timeout. -/
def attemptD (env : HandlerEnv) (msgs : List Message) (model : Option String)
    (p : Provider) : Except String String :=
  noRace (env p.name msgs model)

/-- Variant D's aggregate failure message (part_000 line 1101); the text is
the same as variant C's. -/
def aggD (errors : List String) : String :=
  "All " ++ toString errors.length ++ " providers failed:\n"
    ++ String.intercalate "\n" errors

/-- The loop of variant D's `tryProviders` (part_000 lines 1084-1099); the
acceptance check is `result && result.trim().length > 0` (line 1090). -/
def goD (env : HandlerEnv) (msgs : List Message) (model : Option String) :
    List Provider → List String → Except String String × List String
  | [], errors => (Except.error (aggD errors), [])
  | p :: rest, errors =>
    match attemptD env msgs model p with
    | Except.ok r =>
      if acceptA r then (Except.ok r, [p.name])
      else
        let x := goD env msgs model rest errors
        (x.1, p.name :: x.2)
    | Except.error m =>
      let x := goD env msgs model rest (errors ++ [p.name ++ ": " ++ m])
      (x.1, p.name :: x.2)

/-- Variant D's `tryProviders` with its invocation trace. -/
def tryProvidersDRun (env : HandlerEnv) (msgs : List Message) (model : Option String) :
    Except String String × List String :=
  goD env msgs model sortedEnabledD []

/-- Variant D's `tryProviders` (part_000 lines 1077-1102). -/
def tryProvidersD (env : HandlerEnv) (msgs : List Message) (model : Option String) :
    Except String String :=
  (tryProvidersDRun env msgs model).1

-- ===========================================================
-- Variant E: registry and router (src/unnamed/part_001 lines 25-259)
-- ===========================================================

/-- Variant E registry, `providers` in src/unnamed/part_001 lines 219-224
(entries defined at lines 37-216).  The `Provider` interface of this variant
(lines 25-30) has no `priority` field, so every entry carries `none`. -/
def providersE : List Provider :=
  [ ⟨"Phind", ["gpt-4", "gpt-3.5-turbo", "Phind-70B"], true, none⟩,
    ⟨"DeepInfra",
      ["meta-llama/Meta-Llama-3.1-70B-Instruct", "mistralai/Mixtral-8x7B-Instruct-v0.1"],
      true, none⟩,
    ⟨"DuckDuckGo", ["gpt-3.5-turbo", "claude-3-haiku"], true, none⟩,
    ⟨"Blackbox", ["blackbox", "gpt-4o"], true, none⟩ ]

/-- One raced attempt of variant E (part_001 lines 241-246): 30000 ms. -/
def attemptE (env : HandlerEnv) (msgs : List Message) (model : Option String)
    (p : Provider) : Except String String :=
  race 30000 "Timeout" (env p.name msgs model)

/-- The loop of variant E's `tryProviders` (part_001 lines 238-256).  There
is no emptiness check: whatever string the raced attempt resolves to is
returned immediately (line 249). -/
def goE (env : HandlerEnv) (msgs : List Message) (model : Option String) :
    List Provider → List String → Except String String × List String
  | [], errors =>
    (Except.error ("All providers failed:\n" ++ String.intercalate "\n" errors), [])
  | p :: rest, errors =>
    match attemptE env msgs model p with
    | Except.ok r => (Except.ok r, [p.name])
    | Except.error m =>
      let x := goE env msgs model rest (errors ++ [p.name ++ ": " ++ m])
      (x.1, p.name :: x.2)

/-- Variant E's `tryProviders` with its invocation trace.  The JS code
iterates `[...enabledProviders].sort(() => Math.random() - 0.5)` (part_001
line 234), a nondeterministically shuffled copy of the enabled providers;
the embedding takes the shuffled order as the `order` parameter. -/
def tryProvidersERun (order : List Provider) (env : HandlerEnv) (msgs : List Message)
    (model : Option String) : Except String String × List String :=
  goE env msgs model order []

/-- Variant E's `tryProviders` (part_001 lines 230-259) for a given shuffled
order. -/
def tryProvidersE (order : List Provider) (env : HandlerEnv) (msgs : List Message)
    (model : Option String) : Except String String :=
  (tryProvidersERun order env msgs model).1

-- ===========================================================
-- HTTP layer: request and response shapes
-- ===========================================================

/-- The `messages` field of a POST /v1/chat/completions body, as the
validation `!messages || !Array.isArray(messages) || messages.length === 0`
distinguishes it: a falsy value (absent, null, ...), a truthy non-array, or
an actual array of messages (possibly empty). -/
inductive MessagesField where
  | absent
  | notArray
  | array (ms : List Message)
deriving DecidableEq

/-- A chat-completions request body: the `messages` field, the optional
`model`, and the truthiness of `stream` (the code only ever branches on
`if (stream)`). -/
structure ChatReq where
  messages : MessagesField
  model : Option String
  stream : Bool
deriving DecidableEq

/-- Whether the `messages` field passes the shared validation
`!messages || !Array.isArray(messages) || messages.length === 0`. -/
def validMessages : MessagesField → Bool
  | MessagesField.array ms => !ms.isEmpty
  | _ => false

/-- One fake SSE chunk, with the fields the variants serialize (the
time-derived `id` and `created` fields are not modelled): `object` and
`model` when present, the choice's `index`, the `delta`'s `role` and
`content` members when present, and `finish_reason` (`none` models JSON
`null`). -/
structure StreamChunk where
  object : Option String
  model : Option String
  index : Nat
  deltaRole : Option String
  deltaContent : Option String
  finishReason : Option String
deriving DecidableEq

/-- One event written on a streaming response: a `data:` chunk or the
terminator line `data: [DONE]`. -/
inductive SSEEvent where
  | chunk (c : StreamChunk)
  | done
deriving DecidableEq

/-- A response body: an error object `{ error: { message, type?, code? } }`,
a non-streamed chat completion (its `model`, the assistant `content` and the
`finish_reason`; time- and length-derived fields `id`, `created`, `usage`
are not modelled), or a streamed event sequence. -/
inductive ResponseBody where
  | errJson (message : String) (errType : Option String) (code : Option String)
  | chatJson (model : String) (content : String) (finishReason : String)
  | sse (events : List SSEEvent)
deriving DecidableEq

/-- An HTTP response: status code and body. -/
structure HttpResponse where
  status : Nat
  body : ResponseBody
deriving DecidableEq

/-- The two fake chunks and the terminator written by variant A on a
streaming response (src/src/index.js lines 185-203): the first chunk carries
the whole content with `finish_reason: null`, the second an empty delta with
`finish_reason: 'stop'`, then `data: [DONE]`. -/
def streamEventsA (model : Option String) (content : String) : List SSEEvent :=
  [ SSEEvent.chunk
      ⟨some "chat.completion.chunk", some (model.getD "gpt-3.5-turbo"), 0,
        some "assistant", some content, none⟩,
    SSEEvent.chunk
      ⟨some "chat.completion.chunk", some (model.getD "gpt-3.5-turbo"), 0,
        none, none, some "stop"⟩,
    SSEEvent.done ]

/-- Variant A's POST /v1/chat/completions handler (src/src/index.js lines
171-228), paired with the provider-invocation trace of the request.  An
invalid `messages` field gets status 400 with an `invalid_request_error`
body before any provider is tried; a router success is answered with the
streamed or plain completion; a router failure is caught and answered with
status 500 and an `api_error` body. -/
def chatCompletionsARun (req : ChatReq) (env : HandlerEnv) :
    HttpResponse × List String :=
  match req.messages with
  | MessagesField.array ms =>
    if ms.isEmpty then
      (⟨400, ResponseBody.errJson "messages array required" (some "invalid_request_error") none⟩,
        [])
    else
      let r := tryProvidersARun env ms req.model
      match r.1 with
      | Except.ok content =>
        if req.stream then
          (⟨200, ResponseBody.sse (streamEventsA req.model content)⟩, r.2)
        else
          (⟨200, ResponseBody.chatJson (req.model.getD "gpt-3.5-turbo") content "stop"⟩, r.2)
      | Except.error e =>
        (⟨500, ResponseBody.errJson e (some "api_error") none⟩, r.2)
  | _ =>
    (⟨400, ResponseBody.errJson "messages array required" (some "invalid_request_error") none⟩,
      [])

/-- The two fake chunks and the terminator written by variant B on a
streaming response (src/src/index.js lines 524-533): its chunks carry no
`object` or `model` field, and the first delta has no `role`. -/
def streamEventsB (content : String) : List SSEEvent :=
  [ SSEEvent.chunk ⟨none, none, 0, none, some content, none⟩,
    SSEEvent.chunk ⟨none, none, 0, none, none, some "stop"⟩,
    SSEEvent.done ]

/-- Variant B's POST /v1/chat/completions handler (src/src/index.js lines
513-548).  Its 400 body is `{ error: { message: 'messages required' } }`
with no `type` field, and its 500 body `{ error: { message } }` likewise. -/
def chatCompletionsBRun (req : ChatReq) (env : HandlerEnv) :
    HttpResponse × List String :=
  match req.messages with
  | MessagesField.array ms =>
    if ms.isEmpty then
      (⟨400, ResponseBody.errJson "messages required" none none⟩, [])
    else
      let r := tryProvidersBRun env ms req.model
      match r.1 with
      | Except.ok content =>
        if req.stream then
          (⟨200, ResponseBody.sse (streamEventsB content)⟩, r.2)
        else
          (⟨200, ResponseBody.chatJson (req.model.getD "gpt-3.5-turbo") content "stop"⟩, r.2)
      | Except.error e =>
        (⟨500, ResponseBody.errJson e none none⟩, r.2)
  | _ => (⟨400, ResponseBody.errJson "messages required" none none⟩, [])

/-- Variant C's per-message format check (part_000 lines 438-447):
`if (!msg.role || !msg.content)` rejects a message whose role or content is
falsy, i.e. (for strings) empty. -/
def wellFormedC (ms : List Message) : Bool :=
  ms.all (fun m => m.role != "" && m.content != "")

/-- The two fake chunks and the terminator written by variant C on a
streaming response (part_000 lines 455-495); same shape as variant A's. -/
def streamEventsC (model : Option String) (content : String) : List SSEEvent :=
  streamEventsA model content

/-- Variant C's POST /v1/chat/completions handler (part_000 lines 422-530).
Besides the shared `messages` validation (400, `invalid_request_error`,
code `missing_required_parameter`), it also rejects, with 400 and
`invalid_request_error`, any nonempty messages array containing a message
with falsy role or content, again before any provider is tried.  Its 500
body carries `type: 'api_error'` and `code: 'provider_error'`. -/
def chatCompletionsCRun (req : ChatReq) (env : HandlerEnv) :
    HttpResponse × List String :=
  match req.messages with
  | MessagesField.array ms =>
    if ms.isEmpty then
      (⟨400, ResponseBody.errJson
          "Invalid request: messages array is required and must not be empty"
          (some "invalid_request_error") (some "missing_required_parameter")⟩, [])
    else if !wellFormedC ms then
      (⟨400, ResponseBody.errJson
          "Invalid message format: role and content are required"
          (some "invalid_request_error") none⟩, [])
    else
      let r := tryProvidersCRun env ms req.model
      match r.1 with
      | Except.ok content =>
        if req.stream then
          (⟨200, ResponseBody.sse (streamEventsC req.model content)⟩, r.2)
        else
          (⟨200, ResponseBody.chatJson (req.model.getD "gpt-3.5-turbo") content "stop"⟩, r.2)
      | Except.error e =>
        (⟨500, ResponseBody.errJson e (some "api_error") (some "provider_error")⟩, r.2)
  | _ =>
    (⟨400, ResponseBody.errJson
        "Invalid request: messages array is required and must not be empty"
        (some "invalid_request_error") (some "missing_required_parameter")⟩, [])

-- ===========================================================
-- GET /v1/models (variants A and D)
-- ===========================================================

/-- One entry of the GET /v1/models list: `{ id, object: 'model', created:
1686935002, owned_by: provider.name.toLowerCase() }`. -/
structure ModelEntry where
  id : String
  object : String
  created : Nat
  owned_by : String
deriving DecidableEq

/-- The flat model list a registry produces before deduplication:
`providers.filter(p => p.enabled).flatMap(p => p.models.map(m => ({...})))`. -/
def allModelsOf (registry : List Provider) : List ModelEntry :=
  (registry.filter (·.enabled)).flatMap
    (fun p => p.models.map (fun m => ⟨m, "model", 1686935002, jsToLower p.name⟩))

/-- One step of feeding an entry to `new Map(entries.map(m => [m.id, m]))`:
JavaScript's `Map.set` keeps an existing key at its original insertion
position but overwrites its value, and appends a genuinely new key. -/
def mapInsert (acc : List ModelEntry) (m : ModelEntry) : List ModelEntry :=
  if acc.any (fun e => e.id = m.id) then
    acc.map (fun e => if e.id = m.id then m else e)
  else acc ++ [m]

/-- `Array.from(new Map(entries.map(m => [m.id, m])).values())`: fold the
entries through `mapInsert` and read the values in insertion order. -/
def jsMapValues (ms : List ModelEntry) : List ModelEntry := ms.foldl mapInsert []

/-- The flat (pre-deduplication) model list of variant A (src/src/index.js
lines 255-262). -/
def allModelsA : List ModelEntry := allModelsOf providersA

/-- The data list answered by variant A's GET /v1/models (src/src/index.js
lines 254-266). -/
def modelsEndpointA : List ModelEntry := jsMapValues allModelsA

/-- The flat (pre-deduplication) model list of variant D (part_000 lines
1228-1235). -/
def allModelsD : List ModelEntry := allModelsOf providersD

/-- The data list answered by variant D's GET /v1/models (part_000 lines
1227-1243). -/
def modelsEndpointD : List ModelEntry := jsMapValues allModelsD

/-- The enabled provider occurring last in registry order among those
listing a model id, lowercased — what the claim says `owned_by` should be. -/
def lastOwner (registry : List Provider) (id : String) : Option String :=
  (((registry.filter (·.enabled)).filter (fun p => p.models.contains id)).getLast?).map
    (fun p => jsToLower p.name)

-- ===========================================================
-- The DeepInfra handler of variant A (src/src/index.js lines 18-27)
-- ===========================================================

/-- What the DeepInfra fetch produced, as far as the handler inspects it:
either `response.ok` is false (with the HTTP status), or the body parsed and
`data.choices?.[0]?.message?.content` is the given optional string (`none`
models the field being absent, `some ""` an empty string content). -/
inductive FetchOutcome where
  | httpError (status : Nat)
  | okJson (content : Option String)
deriving DecidableEq

/-- Variant A's DeepInfra handler after the fetch settled (src/src/index.js
lines 24-26): a non-ok response throws `HTTP <status>`; otherwise
`data.choices?.[0]?.message?.content || 'No response'` is returned, so an
absent (or empty, i.e. falsy) content yields the literal `'No response'`. -/
def deepInfraHandlerA (f : FetchOutcome) : Except String String :=
  match f with
  | FetchOutcome.httpError s => Except.error ("HTTP " ++ toString s)
  | FetchOutcome.okJson c =>
    Except.ok (match c with
      | some t => if t = "" then "No response" else t
      | none => "No response")

/-- Repackage a handler result as the behaviour of a promise that settles
immediately. -/
def behaviorOf (r : Except String String) : HandlerBehavior :=
  match r with
  | Except.ok v => HandlerBehavior.returns 0 v
  | Except.error m => HandlerBehavior.throws 0 m

-- ===========================================================
-- Concrete fixtures used by witnesses and counterexamples
-- ===========================================================

/-- A one-message request list, as in the README example. -/
def m0 : List Message := [⟨"user", "Hello!"⟩]

/-- Every handler resolves immediately with `"pong"`. -/
def envPong : HandlerEnv := fun _ _ _ => HandlerBehavior.returns 0 "pong"

/-- Every handler rejects immediately with `"HTTP 500"`. -/
def envDown : HandlerEnv := fun _ _ _ => HandlerBehavior.throws 0 "HTTP 500"

/-- DeepInfra's handler resolves with `"late"`, but only 40000 ms after the
call — past every raced timeout; all other handlers reject immediately. -/
def envLate : HandlerEnv := fun name _ _ =>
  if name = "DeepInfra" then HandlerBehavior.returns 40000 "late"
  else HandlerBehavior.throws 0 "down"

/-- Blackbox's handler resolves immediately with the empty string (its
variant-E handler returns `await response.text()` unchecked); all other
handlers resolve with a real answer. -/
def envEmpty : HandlerEnv := fun name _ _ =>
  if name = "Blackbox" then HandlerBehavior.returns 0 ""
  else HandlerBehavior.returns 0 "real answer"

/-- DeepInfra's handler behaves exactly as `deepInfraHandlerA` on an ok
response whose parsed body has no content field; every later provider would
resolve with a real answer. -/
def env9 : HandlerEnv := fun name _ _ =>
  if name = "DeepInfra" then behaviorOf (deepInfraHandlerA (FetchOutcome.okJson none))
  else HandlerBehavior.returns 0 "real answer"

/-- One possible shuffle of variant E's enabled providers, with Blackbox
drawn first. -/
def orderE0 : List Provider :=
  [ ⟨"Blackbox", ["blackbox", "gpt-4o"], true, none⟩,
    ⟨"Phind", ["gpt-4", "gpt-3.5-turbo", "Phind-70B"], true, none⟩,
    ⟨"DuckDuckGo", ["gpt-3.5-turbo", "claude-3-haiku"], true, none⟩,
    ⟨"DeepInfra",
      ["meta-llama/Meta-Llama-3.1-70B-Instruct", "mistralai/Mixtral-8x7B-Instruct-v0.1"],
      true, none⟩ ]

-- ===========================================================
-- Further router and endpoint definitions (variants C, D, E)
-- ===========================================================

/-- Whether variant C's router would stop at provider `p`: the raced attempt
resolves and the value passes the non-empty check (part_000 line 402). -/
def succeedsC (env : HandlerEnv) (msgs : List Message) (model : Option String)
    (p : Provider) : Bool :=
  match attemptC env msgs model p with
  | Except.ok r => acceptC r
  | Except.error _ => false

/-- The error entries variant C collects over a provider list when no
provider succeeds: one entry per throwing provider, in order, of the form
`name + ": " + message` (part_000 lines 408-410). -/
def failEntriesC (env : HandlerEnv) (msgs : List Message) (model : Option String)
    (l : List Provider) : List String :=
  (l.filter (fun p => isErr (attemptC env msgs model p))).map
    (fun p => p.name ++ ": " ++ errMsgOf (attemptC env msgs model p))

/-- Whether variant D's router would stop at provider `p`: the awaited
handler resolves and the value passes the trim check (part_000 line 1090). -/
def succeedsD (env : HandlerEnv) (msgs : List Message) (model : Option String)
    (p : Provider) : Bool :=
  match attemptD env msgs model p with
  | Except.ok r => acceptA r
  | Except.error _ => false

/-- The error entries variant D collects over a provider list when no
provider succeeds: one entry per throwing provider, in order, of the form
`name + ": " + message` (part_000 lines 1095-1097). -/
def failEntriesD (env : HandlerEnv) (msgs : List Message) (model : Option String)
    (l : List Provider) : List String :=
  (l.filter (fun p => isErr (attemptD env msgs model p))).map
    (fun p => p.name ++ ": " ++ errMsgOf (attemptD env msgs model p))

/-- The two fake chunks and the terminator written by variant D on a
streaming response (part_000 lines 1129-1158); same shape as variant A's. -/
def streamEventsD (model : Option String) (content : String) : List SSEEvent :=
  streamEventsA model content

/-- Variant D's POST /v1/chat/completions handler (part_000 lines
1109-1191), paired with the provider-invocation trace.  Its 400 body is
`{ message: 'messages array is required and cannot be empty', type:
'invalid_request_error' }` (lines 1114-1121, no `code` field and no
per-message format check), and its 500 body carries `type: 'api_error'`
(lines 1184-1189). -/
def chatCompletionsDRun (req : ChatReq) (env : HandlerEnv) :
    HttpResponse × List String :=
  match req.messages with
  | MessagesField.array ms =>
    if ms.isEmpty then
      (⟨400, ResponseBody.errJson "messages array is required and cannot be empty"
          (some "invalid_request_error") none⟩, [])
    else
      let r := tryProvidersDRun env ms req.model
      match r.1 with
      | Except.ok content =>
        if req.stream then
          (⟨200, ResponseBody.sse (streamEventsD req.model content)⟩, r.2)
        else
          (⟨200, ResponseBody.chatJson (req.model.getD "gpt-3.5-turbo") content "stop"⟩, r.2)
      | Except.error e =>
        (⟨500, ResponseBody.errJson e (some "api_error") none⟩, r.2)
  | _ =>
    (⟨400, ResponseBody.errJson "messages array is required and cannot be empty"
        (some "invalid_request_error") none⟩, [])

/-- The two fake chunks and the terminator written by variant E on a
streaming response (part_001 lines 289-321): its chunks carry `object` and
`model`, but the first delta has only `content`, no `role`. -/
def streamEventsE (model : Option String) (content : String) : List SSEEvent :=
  [ SSEEvent.chunk
      ⟨some "chat.completion.chunk", some (model.getD "gpt-3.5-turbo"), 0,
        none, some content, none⟩,
    SSEEvent.chunk
      ⟨some "chat.completion.chunk", some (model.getD "gpt-3.5-turbo"), 0,
        none, none, some "stop"⟩,
    SSEEvent.done ]

/-- Variant E's POST /v1/chat/completions handler (part_001 lines 266-355)
for a given shuffled order, paired with the provider-invocation trace.  Its
400 body is `{ message: 'Invalid request: messages array is required',
type: 'invalid_request_error' }` (lines 272-278), and its 500 body carries
`type: 'internal_error'` (lines 348-353). -/
def chatCompletionsERun (order : List Provider) (req : ChatReq) (env : HandlerEnv) :
    HttpResponse × List String :=
  match req.messages with
  | MessagesField.array ms =>
    if ms.isEmpty then
      (⟨400, ResponseBody.errJson "Invalid request: messages array is required"
          (some "invalid_request_error") none⟩, [])
    else
      let r := tryProvidersERun order env ms req.model
      match r.1 with
      | Except.ok content =>
        if req.stream then
          (⟨200, ResponseBody.sse (streamEventsE req.model content)⟩, r.2)
        else
          (⟨200, ResponseBody.chatJson (req.model.getD "gpt-3.5-turbo") content "stop"⟩, r.2)
      | Except.error e =>
        (⟨500, ResponseBody.errJson e (some "internal_error") none⟩, r.2)
  | _ =>
    (⟨400, ResponseBody.errJson "Invalid request: messages array is required"
        (some "invalid_request_error") none⟩, [])

/-- DeepInfra's handler resolves with `"slow"` 27000 ms after the call —
inside variant A's 30000 ms raced timeout but past variant B's 25000 ms
one; all other handlers reject immediately. -/
def envMid : HandlerEnv := fun name _ _ =>
  if name = "DeepInfra" then HandlerBehavior.returns 27000 "slow"
  else HandlerBehavior.throws 0 "down"

-- ===========================================================
-- Helper lemmas about the router loops
-- ===========================================================

/-- If every provider before the split point fails variant A's success test
and the provider at the split point passes it, the loop returns that
provider's raced attempt outcome and invokes exactly the providers up to and
including it. -/
theorem goA_split_success (env : HandlerEnv) (msgs : List Message) (model : Option String)
    (L₁ : List Provider) (p : Provider) (L₂ : List Provider) (errs : List String)
    (hfail : ∀ q ∈ L₁, succeedsA env msgs model q = false)
    (hsucc : succeedsA env msgs model p = true) :
    goA env msgs model (L₁ ++ p :: L₂) errs
      = (attemptA env msgs model p, (L₁ ++ [p]).map Provider.name) := by
  induction L₁ generalizing errs with
  | nil =>
    cases h : attemptA env msgs model p with
    | ok r =>
      simp only [succeedsA, h] at hsucc
      simp [goA, h, hsucc]
    | error m => simp [succeedsA, h] at hsucc
  | cons q L₁ ih =>
    have hq : succeedsA env msgs model q = false := hfail q (by simp)
    have hrest : ∀ x ∈ L₁, succeedsA env msgs model x = false :=
      fun x hx => hfail x (by simp [hx])
    cases h : attemptA env msgs model q with
    | ok r =>
      simp only [succeedsA, h] at hq
      simp [goA, h, hq, ih errs hrest]
    | error m =>
      simp [goA, h, ih _ hrest]

/-- When no provider of the list passes variant A's success test, the loop
throws the aggregate of the already collected errors followed by one entry
per throwing provider of the list, in order. -/
theorem goA_all_fail (env : HandlerEnv) (msgs : List Message) (model : Option String) :
    ∀ (L : List Provider) (errs : List String),
      (∀ p ∈ L, succeedsA env msgs model p = false) →
      (goA env msgs model L errs).1
        = Except.error (aggA (errs ++ failEntriesA env msgs model L)) := by
  intro L
  induction L with
  | nil => intro errs _; simp [goA, failEntriesA]
  | cons p rest ih =>
    intro errs h
    have hp := h p (by simp)
    have hrest : ∀ x ∈ rest, succeedsA env msgs model x = false :=
      fun x hx => h x (by simp [hx])
    cases hatt : attemptA env msgs model p with
    | ok r =>
      have hacc : acceptA r = false := by simpa [succeedsA, hatt] using hp
      simp [goA, hatt, hacc, ih errs hrest, failEntriesA, isErr]
    | error m =>
      simp [goA, hatt, ih _ hrest, failEntriesA, isErr, errMsgOf]

/-- Any value variant A's loop returns passed the acceptance check. -/
theorem goA_ok_accept (env : HandlerEnv) (msgs : List Message) (model : Option String) :
    ∀ (L : List Provider) (errs : List String) (s : String),
      (goA env msgs model L errs).1 = Except.ok s → acceptA s = true := by
  intro L
  induction L with
  | nil => intro errs s h; simp [goA] at h
  | cons p rest ih =>
    intro errs s h
    cases hatt : attemptA env msgs model p with
    | ok r =>
      cases hacc : acceptA r with
      | true =>
        simp [goA, hatt, hacc] at h
        exact h ▸ hacc
      | false =>
        simp [goA, hatt, hacc] at h
        exact ih errs s h
    | error m =>
      simp [goA, hatt] at h
      exact ih _ s h

/-- Variant A's invocation trace is a sublist of the visited providers'
names, in order. -/
theorem goA_trace_sublist (env : HandlerEnv) (msgs : List Message) (model : Option String) :
    ∀ (L : List Provider) (errs : List String),
      List.Sublist (goA env msgs model L errs).2 (L.map Provider.name) := by
  intro L
  induction L with
  | nil => intro errs; simp [goA]
  | cons p rest ih =>
    intro errs
    cases hatt : attemptA env msgs model p with
    | ok r =>
      cases hacc : acceptA r with
      | true => simp [goA, hatt, hacc]
      | false => simp [goA, hatt, hacc, ih errs]
    | error m => simp [goA, hatt, ih]

/-- On a nonempty provider list, variant A's loop invokes at least one
handler. -/
theorem goA_trace_ne_nil (env : HandlerEnv) (msgs : List Message) (model : Option String)
    (L : List Provider) (errs : List String) (h : L ≠ []) :
    (goA env msgs model L errs).2 ≠ [] := by
  cases L with
  | nil => exact absurd rfl h
  | cons p rest =>
    cases hatt : attemptA env msgs model p with
    | ok r => cases hacc : acceptA r <;> simp [goA, hatt, hacc]
    | error m => simp [goA, hatt]

/-- When no provider of the list passes variant B's success test, the loop
throws the fixed message `'All providers failed'`. -/
theorem goB_all_fail (env : HandlerEnv) (msgs : List Message) (model : Option String) :
    ∀ (L : List Provider),
      (∀ p ∈ L, succeedsB env msgs model p = false) →
      (goB env msgs model L).1 = Except.error "All providers failed" := by
  intro L
  induction L with
  | nil => intro _; simp [goB]
  | cons p rest ih =>
    intro h
    have hp := h p (by simp)
    have hrest : ∀ x ∈ rest, succeedsB env msgs model x = false :=
      fun x hx => h x (by simp [hx])
    cases hatt : attemptB env msgs model p with
    | ok r =>
      have hacc : acceptA r = false := by simpa [succeedsB, hatt] using hp
      simp [goB, hatt, hacc, ih hrest]
    | error m => simp [goB, hatt, ih hrest]

/-- Any value variant B's loop returns passed the acceptance check. -/
theorem goB_ok_accept (env : HandlerEnv) (msgs : List Message) (model : Option String) :
    ∀ (L : List Provider) (s : String),
      (goB env msgs model L).1 = Except.ok s → acceptA s = true := by
  intro L
  induction L with
  | nil => intro s h; simp [goB] at h
  | cons p rest ih =>
    intro s h
    cases hatt : attemptB env msgs model p with
    | ok r =>
      cases hacc : acceptA r with
      | true => simp [goB, hatt, hacc] at h; exact h ▸ hacc
      | false => simp [goB, hatt, hacc] at h; exact ih s h
    | error m => simp [goB, hatt] at h; exact ih s h

/-- Any value variant C's loop returns passed its (non-trimming)
acceptance check. -/
theorem goC_ok_accept (env : HandlerEnv) (msgs : List Message) (model : Option String) :
    ∀ (L : List Provider) (errs : List String) (s : String),
      (goC env msgs model L errs).1 = Except.ok s → acceptC s = true := by
  intro L
  induction L with
  | nil => intro errs s h; simp [goC] at h
  | cons p rest ih =>
    intro errs s h
    cases hatt : attemptC env msgs model p with
    | ok r =>
      cases hacc : acceptC r with
      | true => simp [goC, hatt, hacc] at h; exact h ▸ hacc
      | false => simp [goC, hatt, hacc] at h; exact ih errs s h
    | error m => simp [goC, hatt] at h; exact ih _ s h

/-- On a nonempty provider list, variant C's loop invokes at least one
handler. -/
theorem goC_trace_ne_nil (env : HandlerEnv) (msgs : List Message) (model : Option String)
    (L : List Provider) (errs : List String) (h : L ≠ []) :
    (goC env msgs model L errs).2 ≠ [] := by
  cases L with
  | nil => exact absurd rfl h
  | cons p rest =>
    cases hatt : attemptC env msgs model p with
    | ok r => cases hacc : acceptC r <;> simp [goC, hatt, hacc]
    | error m => simp [goC, hatt]

/-- Any value variant D's loop returns passed the acceptance check. -/
theorem goD_ok_accept (env : HandlerEnv) (msgs : List Message) (model : Option String) :
    ∀ (L : List Provider) (errs : List String) (s : String),
      (goD env msgs model L errs).1 = Except.ok s → acceptA s = true := by
  intro L
  induction L with
  | nil => intro errs s h; simp [goD] at h
  | cons p rest ih =>
    intro errs s h
    cases hatt : attemptD env msgs model p with
    | ok r =>
      cases hacc : acceptA r with
      | true => simp [goD, hatt, hacc] at h; exact h ▸ hacc
      | false => simp [goD, hatt, hacc] at h; exact ih errs s h
    | error m => simp [goD, hatt] at h; exact ih _ s h

/-- Variant E's invocation trace is a sublist of the visited providers'
names, in order. -/
theorem goE_trace_sublist (env : HandlerEnv) (msgs : List Message) (model : Option String) :
    ∀ (L : List Provider) (errs : List String),
      List.Sublist (goE env msgs model L errs).2 (L.map Provider.name) := by
  intro L
  induction L with
  | nil => intro errs; simp [goE]
  | cons p rest ih =>
    intro errs
    cases hatt : attemptE env msgs model p with
    | ok r => simp [goE, hatt]
    | error m => simp [goE, hatt, ih]

/-- When no provider of the list passes variant C's success test, the loop
throws the aggregate of the already collected errors followed by one entry
per throwing provider of the list, in order. -/
theorem goC_all_fail (env : HandlerEnv) (msgs : List Message) (model : Option String) :
    ∀ (L : List Provider) (errs : List String),
      (∀ p ∈ L, succeedsC env msgs model p = false) →
      (goC env msgs model L errs).1
        = Except.error (aggC (errs ++ failEntriesC env msgs model L)) := by
  intro L
  induction L with
  | nil => intro errs _; simp [goC, failEntriesC]
  | cons p rest ih =>
    intro errs h
    have hp := h p (by simp)
    have hrest : ∀ x ∈ rest, succeedsC env msgs model x = false :=
      fun x hx => h x (by simp [hx])
    cases hatt : attemptC env msgs model p with
    | ok r =>
      have hacc : acceptC r = false := by simpa [succeedsC, hatt] using hp
      simp [goC, hatt, hacc, ih errs hrest, failEntriesC, isErr]
    | error m =>
      simp [goC, hatt, ih _ hrest, failEntriesC, isErr, errMsgOf]

/-- When no provider of the list passes variant D's success test, the loop
throws the aggregate of the already collected errors followed by one entry
per throwing provider of the list, in order. -/
theorem goD_all_fail (env : HandlerEnv) (msgs : List Message) (model : Option String) :
    ∀ (L : List Provider) (errs : List String),
      (∀ p ∈ L, succeedsD env msgs model p = false) →
      (goD env msgs model L errs).1
        = Except.error (aggD (errs ++ failEntriesD env msgs model L)) := by
  intro L
  induction L with
  | nil => intro errs _; simp [goD, failEntriesD]
  | cons p rest ih =>
    intro errs h
    have hp := h p (by simp)
    have hrest : ∀ x ∈ rest, succeedsD env msgs model x = false :=
      fun x hx => h x (by simp [hx])
    cases hatt : attemptD env msgs model p with
    | ok r =>
      have hacc : acceptA r = false := by simpa [succeedsD, hatt] using hp
      simp [goD, hatt, hacc, ih errs hrest, failEntriesD, isErr]
    | error m =>
      simp [goD, hatt, ih _ hrest, failEntriesD, isErr, errMsgOf]

/-- On a nonempty provider list, variant E's loop invokes at least one
handler. -/
theorem goE_trace_ne_nil (env : HandlerEnv) (msgs : List Message) (model : Option String)
    (L : List Provider) (errs : List String) (h : L ≠ []) :
    (goE env msgs model L errs).2 ≠ [] := by
  cases L with
  | nil => exact absurd rfl h
  | cons p rest =>
    cases hatt : attemptE env msgs model p with
    | ok r => simp [goE, hatt]
    | error m => simp [goE, hatt]

-- ===========================================================
-- Claim theorems
-- ===========================================================

/-- C1: for every non-empty message list and optional model, variant A's
`tryProviders` visits exactly the enabled providers of the registry
(`sortedEnabledA` is a permutation of the enabled filter and every visited
provider is enabled), in ascending priority order (pairwise `prioLe`), and
when the providers before some split point all fail its success test while
the provider at the split point passes it, the router returns that
provider's raced attempt outcome and invokes exactly the providers up to
and including it — no later provider is invoked. -/
theorem c1_priority_first_success (env : HandlerEnv) (msgs : List Message) (model : Option String)
    (L₁ : List Provider) (p : Provider) (L₂ : List Provider)
    (_hmsgs : msgs ≠ [])
    (hsplit : sortedEnabledA = L₁ ++ p :: L₂)
    (hfail : ∀ q ∈ L₁, succeedsA env msgs model q = false)
    (hsucc : succeedsA env msgs model p = true) :
    List.Perm sortedEnabledA (providersA.filter (·.enabled))
    ∧ (∀ q ∈ sortedEnabledA, q.enabled = true)
    ∧ List.Pairwise prioLe sortedEnabledA
    ∧ tryProvidersARun env msgs model
        = (attemptA env msgs model p, (L₁ ++ [p]).map Provider.name) := by
  refine ⟨List.perm_insertionSort prioLe _, by decide, List.sorted_insertionSort prioLe _, ?_⟩
  rw [tryProvidersARun, hsplit]
  exact goA_split_success env msgs model L₁ p L₂ [] hfail hsucc

/-- Witness for C1: with every handler resolving `"pong"` immediately, the
router answers `"pong"` and invokes only the priority-1 provider DeepInfra. -/
theorem c1_priority_first_success_witness :
    tryProvidersARun envPong m0 none = (Except.ok "pong", ["DeepInfra"]) := by
  have h := c1_priority_first_success envPong m0 none []
    ⟨"DeepInfra", ["meta-llama/Meta-Llama-3.1-70B-Instruct", "mistralai/Mixtral-8x7B-Instruct-v0.1"],
      true, some 1⟩
    (providersA.drop 1) (by decide) (by decide) (by decide) (by decide)
  exact h.2.2.2

/-- C2 counterexample: the claim's cited variant B (src/src/index.js lines
504-510) does not aggregate: when every provider throws `HTTP 500`, it
throws the fixed message `'All providers failed'`, which names no provider
(e.g. `DeepInfra` does not occur in it) and states no failure count, and its
500 body carries no `type: 'api_error'` field. -/
theorem c2_counterexample :
    tryProvidersB envDown m0 none = Except.error "All providers failed"
    ∧ occursIn "DeepInfra" "All providers failed" = false
    ∧ (chatCompletionsBRun ⟨MessagesField.array m0, none, false⟩ envDown).1
        = ⟨500, ResponseBody.errJson "All providers failed" none none⟩ :=
  ⟨by decide, by decide, by decide⟩

/-- C2 amended: when every enabled provider attempt fails, each
error-collecting router — variant A and both part_000 variants (C and D) —
throws a single error whose message aggregates the collected failures, one
`name: message` entry per throwing provider, in order (`failEntriesA`,
`failEntriesC`, `failEntriesD`), and whose stated count is the number of
collected entries; the corresponding endpoints then answer 500 with an
`api_error` body.  Variant B instead throws the fixed message
`'All providers failed'` and its 500 body has no `type` field. -/
theorem c2_amended (env : HandlerEnv) (msgs : List Message) (model : Option String) (st : Bool)
    (hne : msgs ≠ [])
    (hwf : wellFormedC msgs = true)
    (hA : ∀ p ∈ sortedEnabledA, succeedsA env msgs model p = false)
    (hB : ∀ p ∈ sortedEnabledB, succeedsB env msgs model p = false)
    (hC : ∀ p ∈ sortedEnabledC, succeedsC env msgs model p = false)
    (hD : ∀ p ∈ sortedEnabledD, succeedsD env msgs model p = false) :
    tryProvidersA env msgs model
      = Except.error ("Todos os "
          ++ toString (failEntriesA env msgs model sortedEnabledA).length
          ++ " providers falharam:\n"
          ++ String.intercalate "\n" (failEntriesA env msgs model sortedEnabledA))
    ∧ (chatCompletionsARun ⟨MessagesField.array msgs, model, st⟩ env).1
        = ⟨500, ResponseBody.errJson (aggA (failEntriesA env msgs model sortedEnabledA))
            (some "api_error") none⟩
    ∧ tryProvidersB env msgs model = Except.error "All providers failed"
    ∧ (chatCompletionsBRun ⟨MessagesField.array msgs, model, st⟩ env).1
        = ⟨500, ResponseBody.errJson "All providers failed" none none⟩
    ∧ tryProvidersC env msgs model
      = Except.error ("All "
          ++ toString (failEntriesC env msgs model sortedEnabledC).length
          ++ " providers failed:\n"
          ++ String.intercalate "\n" (failEntriesC env msgs model sortedEnabledC))
    ∧ (chatCompletionsCRun ⟨MessagesField.array msgs, model, st⟩ env).1
        = ⟨500, ResponseBody.errJson (aggC (failEntriesC env msgs model sortedEnabledC))
            (some "api_error") (some "provider_error")⟩
    ∧ tryProvidersD env msgs model
      = Except.error ("All "
          ++ toString (failEntriesD env msgs model sortedEnabledD).length
          ++ " providers failed:\n"
          ++ String.intercalate "\n" (failEntriesD env msgs model sortedEnabledD))
    ∧ (chatCompletionsDRun ⟨MessagesField.array msgs, model, st⟩ env).1
        = ⟨500, ResponseBody.errJson (aggD (failEntriesD env msgs model sortedEnabledD))
            (some "api_error") none⟩ := by
  have hms : msgs.isEmpty = false := by
    cases msgs with
    | nil => exact absurd rfl hne
    | cons a l => rfl
  have h1 : (tryProvidersARun env msgs model).1
      = Except.error (aggA (failEntriesA env msgs model sortedEnabledA)) := by
    have h := goA_all_fail env msgs model sortedEnabledA [] hA
    simpa [tryProvidersARun] using h
  have h3 : (tryProvidersBRun env msgs model).1 = Except.error "All providers failed" :=
    goB_all_fail env msgs model sortedEnabledB hB
  have h5 : (tryProvidersCRun env msgs model).1
      = Except.error (aggC (failEntriesC env msgs model sortedEnabledC)) := by
    have h := goC_all_fail env msgs model sortedEnabledC [] hC
    simpa [tryProvidersCRun] using h
  have h7 : (tryProvidersDRun env msgs model).1
      = Except.error (aggD (failEntriesD env msgs model sortedEnabledD)) := by
    have h := goD_all_fail env msgs model sortedEnabledD [] hD
    simpa [tryProvidersDRun] using h
  refine ⟨h1, ?_, h3, ?_, h5, ?_, h7, ?_⟩
  · simp [chatCompletionsARun, hms, h1]
  · simp [chatCompletionsBRun, hms, h3]
  · simp [chatCompletionsCRun, hms, hwf, h5]
  · simp [chatCompletionsDRun, hms, h7]

/-- Witness for C2 (amended): with every handler throwing `HTTP 500`,
variants A, C and D aggregate all seven failures with the count 7, each in
its own registry order, while variant B throws its fixed message. -/
theorem c2_amended_witness :
    tryProvidersA envDown m0 none
      = Except.error ("Todos os 7 providers falharam:\nDeepInfra: HTTP 500\nTogether: HTTP 500\nHuggingFace: HTTP 500\nGroq: HTTP 500\nPhind: HTTP 500\nBlackbox: HTTP 500\nCohere: HTTP 500")
    ∧ tryProvidersB envDown m0 none = Except.error "All providers failed"
    ∧ tryProvidersC envDown m0 none
      = Except.error ("All 7 providers failed:\nDeepInfra: HTTP 500\nHuggingFace: HTTP 500\nTogether: HTTP 500\nGroq: HTTP 500\nPhind: HTTP 500\nBlackbox: HTTP 500\nAirforce: HTTP 500")
    ∧ tryProvidersD envDown m0 none
      = Except.error ("All 7 providers failed:\nDeepInfra: HTTP 500\nTogether: HTTP 500\nHuggingFace: HTTP 500\nGroq: HTTP 500\nPhind: HTTP 500\nBlackbox: HTTP 500\nCohere: HTTP 500") := by
  have h := c2_amended envDown m0 none false (by decide) (by decide)
    (by decide) (by decide) (by decide) (by decide)
  exact ⟨h.1.trans (by decide), h.2.2.1, h.2.2.2.2.1.trans (by decide),
    h.2.2.2.2.2.2.1.trans (by decide)⟩

/-- C3 counterexample: variant E (the shuffled load-balancing router,
part_001 lines 230-259) has no emptiness check: with Blackbox shuffled
first and its handler resolving to the empty string, `tryProviders` returns
the empty string as the answer and invokes no further provider. -/
theorem c3_counterexample :
    tryProvidersERun orderE0 envEmpty m0 none = (Except.ok "", ["Blackbox"]) := by decide

/-- C3 amended: the four priority-ordered routers return a value only when
it passes their emptiness check — variants A, B and D only non-whitespace
strings (`jsTrim s ≠ ""`), variant C only non-empty strings — but the
shuffled variant E returns whatever the first non-throwing handler resolves
to, including the empty string. -/
theorem c3_amended :
    (∀ (env : HandlerEnv) (msgs : List Message) (model : Option String) (s : String),
        tryProvidersA env msgs model = Except.ok s → jsTrim s ≠ "")
    ∧ (∀ (env : HandlerEnv) (msgs : List Message) (model : Option String) (s : String),
        tryProvidersB env msgs model = Except.ok s → jsTrim s ≠ "")
    ∧ (∀ (env : HandlerEnv) (msgs : List Message) (model : Option String) (s : String),
        tryProvidersC env msgs model = Except.ok s → s ≠ "")
    ∧ (∀ (env : HandlerEnv) (msgs : List Message) (model : Option String) (s : String),
        tryProvidersD env msgs model = Except.ok s → jsTrim s ≠ "")
    ∧ tryProvidersE orderE0 envEmpty m0 none = Except.ok "" := by
  refine ⟨?_, ?_, ?_, ?_, by decide⟩
  · intro env msgs model s h
    simpa [acceptA] using goA_ok_accept env msgs model sortedEnabledA [] s h
  · intro env msgs model s h
    simpa [acceptA] using goB_ok_accept env msgs model sortedEnabledB s h
  · intro env msgs model s h
    simpa [acceptC] using goC_ok_accept env msgs model sortedEnabledC [] s h
  · intro env msgs model s h
    simpa [acceptA] using goD_ok_accept env msgs model sortedEnabledD [] s h

/-- Witness for C3 (amended): variant A's guarantee applied at a concrete
run that returns `"pong"`. -/
theorem c3_amended_witness : jsTrim "pong" ≠ "" :=
  c3_amended.1 envPong m0 none "pong" (by decide)

/-- C4 counterexample: variant D (part_000 lines 1084-1098, cited by the
claim) does not race the handler against a timeout: a DeepInfra handler
settling only after 40000 ms — past every raced timeout constant — still
has its value returned as the success, and iteration does not proceed to
the next enabled provider; variant A, on the same environment, times the
same attempt out and proceeds through all seven providers. -/
theorem c4_counterexample :
    tryProvidersDRun envLate m0 none = (Except.ok "late", ["DeepInfra"])
    ∧ 30000 ≤ (envLate "DeepInfra" m0 none).delay
    ∧ (tryProvidersARun envLate m0 none).2
        = ["DeepInfra", "Together", "HuggingFace", "Groq", "Phind", "Blackbox", "Cohere"] :=
  ⟨by decide, by decide, by decide⟩

/-- C4 amended: in each raced router a handler that settles at or past that
router's fixed timeout constant is replaced by the router's timeout failure,
which is recorded (where errors are collected) and iteration proceeds with
the rest of the list; a handler settling strictly inside the constant is
observed as is.  The constants are 30000 ms for variants A (`'Timeout'`),
C (`'Timeout after 30s'`) and E (`'Timeout'`), and 25000 ms for variant B
(`'Timeout'`, which collects no errors but still proceeds).  Variant D
awaits the handler directly, so a resolution after any delay is returned as
a success. -/
theorem c4_amended (env : HandlerEnv) (msgs : List Message) (model : Option String)
    (p : Provider) (rest : List Provider) (errs : List String) (d : Nat) (v : String)
    (henv : env p.name msgs model = HandlerBehavior.returns d v) :
    (30000 ≤ d →
      attemptA env msgs model p = Except.error "Timeout"
      ∧ (goA env msgs model (p :: rest) errs).1
          = (goA env msgs model rest (errs ++ [p.name ++ ": " ++ "Timeout"])).1
      ∧ (goA env msgs model (p :: rest) errs).2
          = p.name :: (goA env msgs model rest (errs ++ [p.name ++ ": " ++ "Timeout"])).2
      ∧ attemptC env msgs model p = Except.error "Timeout after 30s"
      ∧ (goC env msgs model (p :: rest) errs).1
          = (goC env msgs model rest (errs ++ [p.name ++ ": " ++ "Timeout after 30s"])).1
      ∧ (goC env msgs model (p :: rest) errs).2
          = p.name :: (goC env msgs model rest (errs ++ [p.name ++ ": " ++ "Timeout after 30s"])).2
      ∧ attemptE env msgs model p = Except.error "Timeout"
      ∧ (goE env msgs model (p :: rest) errs).1
          = (goE env msgs model rest (errs ++ [p.name ++ ": " ++ "Timeout"])).1
      ∧ (goE env msgs model (p :: rest) errs).2
          = p.name :: (goE env msgs model rest (errs ++ [p.name ++ ": " ++ "Timeout"])).2)
    ∧ (25000 ≤ d →
      attemptB env msgs model p = Except.error "Timeout"
      ∧ (goB env msgs model (p :: rest)).1 = (goB env msgs model rest).1
      ∧ (goB env msgs model (p :: rest)).2 = p.name :: (goB env msgs model rest).2)
    ∧ (d < 30000 →
      attemptA env msgs model p = Except.ok v
      ∧ attemptC env msgs model p = Except.ok v
      ∧ attemptE env msgs model p = Except.ok v)
    ∧ (d < 25000 → attemptB env msgs model p = Except.ok v)
    ∧ attemptD env msgs model p = Except.ok v := by
  refine ⟨?_, ?_, ?_, ?_, ?_⟩
  · intro hd
    have h30 : ¬ d < 30000 := by omega
    have hA : attemptA env msgs model p = Except.error "Timeout" := by
      simp [attemptA, race, henv, h30]
    have hC : attemptC env msgs model p = Except.error "Timeout after 30s" := by
      simp [attemptC, race, henv, h30]
    have hE : attemptE env msgs model p = Except.error "Timeout" := by
      simp [attemptE, race, henv, h30]
    exact ⟨hA, by simp [goA, hA], by simp [goA, hA], hC, by simp [goC, hC],
      by simp [goC, hC], hE, by simp [goE, hE], by simp [goE, hE]⟩
  · intro hd
    have h25 : ¬ d < 25000 := by omega
    have hB : attemptB env msgs model p = Except.error "Timeout" := by
      simp [attemptB, race, henv, h25]
    exact ⟨hB, by simp [goB, hB], by simp [goB, hB]⟩
  · intro hd
    refine ⟨?_, ?_, ?_⟩ <;> simp [attemptA, attemptC, attemptE, race, henv, hd]
  · intro hd
    simp [attemptB, race, henv, hd]
  · simp [attemptD, noRace, henv]

/-- Witness for C4 (amended): a 27000 ms DeepInfra resolution is inside
variant A's 30000 ms bound but past variant B's 25000 ms bound, so A
observes the value while B times out; a 40000 ms resolution is past every
raced bound, so raced variant A rejects it as `Timeout` while unraced
variant D accepts it. -/
theorem c4_amended_witness :
    attemptA envMid m0 none
        ⟨"DeepInfra", ["meta-llama/Meta-Llama-3.1-70B-Instruct", "mistralai/Mixtral-8x7B-Instruct-v0.1"],
          true, some 1⟩
      = Except.ok "slow"
    ∧ attemptB envMid m0 none
        ⟨"DeepInfra", ["meta-llama/Meta-Llama-3.1-70B-Instruct", "mistralai/Mixtral-8x7B-Instruct-v0.1"],
          true, some 1⟩
      = Except.error "Timeout"
    ∧ attemptA envLate m0 none
        ⟨"DeepInfra", ["meta-llama/Meta-Llama-3.1-70B-Instruct", "mistralai/Mixtral-8x7B-Instruct-v0.1"],
          true, some 1⟩
      = Except.error "Timeout"
    ∧ attemptD envLate m0 none
        ⟨"DeepInfra", ["meta-llama/Meta-Llama-3.1-70B-Instruct", "mistralai/Mixtral-8x7B-Instruct-v0.1"],
          true, some 1⟩
      = Except.ok "late" := by
  have h1 := c4_amended envMid m0 none
    ⟨"DeepInfra", ["meta-llama/Meta-Llama-3.1-70B-Instruct", "mistralai/Mixtral-8x7B-Instruct-v0.1"],
      true, some 1⟩
    [] [] 27000 "slow" (by decide)
  have h2 := c4_amended envLate m0 none
    ⟨"DeepInfra", ["meta-llama/Meta-Llama-3.1-70B-Instruct", "mistralai/Mixtral-8x7B-Instruct-v0.1"],
      true, some 1⟩
    [] [] 40000 "late" (by decide)
  exact ⟨(h1.2.2.1 (by decide)).1, (h1.2.1 (by decide)).1,
    (h2.1 (by decide)).1, h2.2.2.2.2⟩

/-- C5: within a single request no provider handler is invoked twice: the
invocation trace of variant A's router has no duplicate provider name, and
the same holds for the shuffled variant E on any shuffle without duplicate
names (a shuffle of the registry, whose names are distinct, is such a
list). -/
theorem c5_one_shot (env : HandlerEnv) (msgs : List Message) (model : Option String)
    (order : List Provider) (hord : (order.map Provider.name).Nodup) :
    ((tryProvidersARun env msgs model).2).Nodup
    ∧ ((tryProvidersERun order env msgs model).2).Nodup := by
  constructor
  · have hnd : (sortedEnabledA.map Provider.name).Nodup := by decide
    exact List.Nodup.sublist (goA_trace_sublist env msgs model sortedEnabledA []) hnd
  · exact List.Nodup.sublist (goE_trace_sublist env msgs model order []) hord

/-- Witness for C5 at a concrete environment and shuffle. -/
theorem c5_one_shot_witness :
    ((tryProvidersARun envPong m0 none).2).Nodup
    ∧ ((tryProvidersERun orderE0 envPong m0 none).2).Nodup :=
  c5_one_shot envPong m0 none orderE0 (by decide)

/-- C6: when a chat-completions request sets `stream` and some provider
succeeds with content `c`, variant A's endpoint answers with exactly three
events: a chunk carrying the entire winning text at once with
`finish_reason: null`, a chunk with an empty delta and
`finish_reason: 'stop'`, and the terminator `data: [DONE]` — provider
tokens are never forwarded incrementally. -/
theorem c6_fake_stream (env : HandlerEnv) (ms : List Message) (model : Option String) (c : String)
    (hne : ms ≠ [])
    (hok : tryProvidersA env ms model = Except.ok c) :
    (chatCompletionsARun ⟨MessagesField.array ms, model, true⟩ env).1
      = ⟨200, ResponseBody.sse
          [ SSEEvent.chunk ⟨some "chat.completion.chunk", some (model.getD "gpt-3.5-turbo"), 0,
              some "assistant", some c, none⟩,
            SSEEvent.chunk ⟨some "chat.completion.chunk", some (model.getD "gpt-3.5-turbo"), 0,
              none, none, some "stop"⟩,
            SSEEvent.done ]⟩ := by
  have hms : ms.isEmpty = false := by
    cases ms with
    | nil => exact absurd rfl hne
    | cons a l => rfl
  have hok' : (tryProvidersARun env ms model).1 = Except.ok c := hok
  simp [chatCompletionsARun, hms, hok', streamEventsA]

/-- Witness for C6 at a concrete streaming request answered `"pong"`. -/
theorem c6_fake_stream_witness :
    (chatCompletionsARun ⟨MessagesField.array m0, none, true⟩ envPong).1
      = ⟨200, ResponseBody.sse
          [ SSEEvent.chunk ⟨some "chat.completion.chunk", some "gpt-3.5-turbo", 0,
              some "assistant", some "pong", none⟩,
            SSEEvent.chunk ⟨some "chat.completion.chunk", some "gpt-3.5-turbo", 0,
              none, none, some "stop"⟩,
            SSEEvent.done ]⟩ := by
  have h := c6_fake_stream envPong m0 none "pong" (by decide) (by decide)
  simpa using h

/-- C7 counterexample: variant E's registry (part_001, whose `Provider`
interface has no `priority` field) contains the Phind entry, which carries
no numeric priority — so not every provider in the repository's registries
carries one. -/
theorem c7_counterexample :
    providersE.all (fun p => p.priority.isSome) = false
    ∧ (⟨"Phind", ["gpt-4", "gpt-3.5-turbo", "Phind-70B"], true, none⟩ : Provider) ∈ providersE :=
  ⟨by decide, by decide⟩

/-- C7 amended: every provider of the four priority-ordered registries
carries a non-empty name, a non-empty model list, an enabled flag and a
numeric priority; every provider of variant E's registry carries a
non-empty name, a non-empty model list and an enabled flag but no priority
field; and each registry is a fixed list of the stated size (in the
embedding the registries are constants and no request handler rebuilds
them, mirroring the JS code, which never writes to `providers`). -/
theorem c7_amended :
    providersA.all (fun p => p.name != "" && !p.models.isEmpty && p.priority.isSome) = true
    ∧ providersB.all (fun p => p.name != "" && !p.models.isEmpty && p.priority.isSome) = true
    ∧ providersC.all (fun p => p.name != "" && !p.models.isEmpty && p.priority.isSome) = true
    ∧ providersD.all (fun p => p.name != "" && !p.models.isEmpty && p.priority.isSome) = true
    ∧ providersE.all (fun p => p.name != "" && !p.models.isEmpty) = true
    ∧ providersE.all (fun p => p.priority.isSome) = false
    ∧ providersA.length = 7 ∧ providersB.length = 7 ∧ providersC.length = 7
    ∧ providersD.length = 7 ∧ providersE.length = 4 :=
  ⟨by decide, by decide, by decide, by decide, by decide, by decide,
   by decide, by decide, by decide, by decide, by decide⟩

/-- Helper for C8: on a valid (nonempty-array) request, variant A's endpoint
never answers 400 and always invokes at least one provider. -/
theorem chatA_valid_not400 (env : HandlerEnv) (model : Option String) (st : Bool)
    (ms : List Message) (hms : ms.isEmpty = false) :
    (chatCompletionsARun ⟨MessagesField.array ms, model, st⟩ env).1.status ≠ 400
    ∧ (chatCompletionsARun ⟨MessagesField.array ms, model, st⟩ env).2 ≠ [] := by
  have htr : (tryProvidersARun env ms model).2 ≠ [] :=
    goA_trace_ne_nil env ms model sortedEnabledA [] (by decide)
  cases hr : (tryProvidersARun env ms model).1 with
  | ok c => cases st <;> simp [chatCompletionsARun, hms, hr, htr]
  | error e => cases st <;> simp [chatCompletionsARun, hms, hr, htr]

/-- Helper for C8: on a valid and well-formed request, variant C's endpoint
invokes at least one provider. -/
theorem chatC_valid_trace (env : HandlerEnv) (model : Option String) (st : Bool)
    (ms : List Message) (hms : ms.isEmpty = false) (hwf : wellFormedC ms = true) :
    (chatCompletionsCRun ⟨MessagesField.array ms, model, st⟩ env).2 ≠ [] := by
  have htr : (tryProvidersCRun env ms model).2 ≠ [] :=
    goC_trace_ne_nil env ms model sortedEnabledC [] (by decide)
  cases hr : (tryProvidersCRun env ms model).1 with
  | ok c => cases st <;> simp [chatCompletionsCRun, hms, hwf, hr, htr]
  | error e => cases st <;> simp [chatCompletionsCRun, hms, hwf, hr, htr]

/-- Helper for C8: on a valid (nonempty-array) request, variant E's endpoint
never answers 400, and invokes at least one provider whenever the shuffled
order is nonempty (as any shuffle of the enabled registry is). -/
theorem chatE_valid_not400 (env : HandlerEnv) (model : Option String) (st : Bool)
    (order : List Provider) (ms : List Message) (hms : ms.isEmpty = false) :
    (chatCompletionsERun order ⟨MessagesField.array ms, model, st⟩ env).1.status ≠ 400
    ∧ (order ≠ [] →
        (chatCompletionsERun order ⟨MessagesField.array ms, model, st⟩ env).2 ≠ []) := by
  have htr : order ≠ [] → (tryProvidersERun order env ms model).2 ≠ [] :=
    fun ho => goE_trace_ne_nil env ms model order [] ho
  cases hr : (tryProvidersERun order env ms model).1 with
  | ok c =>
    refine ⟨?_, ?_⟩
    · cases st <;> simp [chatCompletionsERun, hms, hr]
    · intro ho
      have h := htr ho
      cases st <;> simpa [chatCompletionsERun, hms, hr] using h
  | error e =>
    refine ⟨?_, ?_⟩
    · cases st <;> simp [chatCompletionsERun, hms, hr]
    · intro ho
      have h := htr ho
      cases st <;> simpa [chatCompletionsERun, hms, hr] using h

/-- C8 amended: a missing, non-array or empty `messages` field gets status
400 with an `invalid_request_error` body and no provider is invoked, in
variant A, variant C (part_000's first program) and variant E (part_001);
for variants A and E these are exactly the 400 cases (and for A exactly the
no-invocation cases; E invokes a provider on every valid request whose
shuffle is nonempty); variant C additionally answers 400 with
`invalid_request_error` — again invoking no provider — when a nonempty
messages array contains a message with falsy role or content, and invokes a
provider in every remaining case. -/
theorem c8_amended (env : HandlerEnv) (mf : MessagesField) (model : Option String) (st : Bool)
    (order : List Provider) :
    (validMessages mf = false →
      chatCompletionsARun ⟨mf, model, st⟩ env
        = (⟨400, ResponseBody.errJson "messages array required"
            (some "invalid_request_error") none⟩, []))
    ∧ ((chatCompletionsARun ⟨mf, model, st⟩ env).1.status = 400 ↔ validMessages mf = false)
    ∧ ((chatCompletionsARun ⟨mf, model, st⟩ env).2 = [] ↔ validMessages mf = false)
    ∧ (validMessages mf = false →
      chatCompletionsCRun ⟨mf, model, st⟩ env
        = (⟨400, ResponseBody.errJson
            "Invalid request: messages array is required and must not be empty"
            (some "invalid_request_error") (some "missing_required_parameter")⟩, []))
    ∧ (∀ ms, mf = MessagesField.array ms → ms ≠ [] → wellFormedC ms = false →
      chatCompletionsCRun ⟨mf, model, st⟩ env
        = (⟨400, ResponseBody.errJson "Invalid message format: role and content are required"
            (some "invalid_request_error") none⟩, []))
    ∧ (∀ ms, mf = MessagesField.array ms → ms ≠ [] → wellFormedC ms = true →
      (chatCompletionsCRun ⟨mf, model, st⟩ env).2 ≠ [])
    ∧ (validMessages mf = false →
      chatCompletionsERun order ⟨mf, model, st⟩ env
        = (⟨400, ResponseBody.errJson "Invalid request: messages array is required"
            (some "invalid_request_error") none⟩, []))
    ∧ ((chatCompletionsERun order ⟨mf, model, st⟩ env).1.status = 400
        ↔ validMessages mf = false)
    ∧ (∀ ms, mf = MessagesField.array ms → ms ≠ [] → order ≠ [] →
      (chatCompletionsERun order ⟨mf, model, st⟩ env).2 ≠ []) := by
  cases mf with
  | absent =>
    refine ⟨fun _ => rfl, by simp [chatCompletionsARun, validMessages],
      by simp [chatCompletionsARun, validMessages], fun _ => rfl, ?_, ?_,
      fun _ => rfl, by simp [chatCompletionsERun, validMessages], ?_⟩
    · intro ms h; cases h
    · intro ms h; cases h
    · intro ms h; cases h
  | notArray =>
    refine ⟨fun _ => rfl, by simp [chatCompletionsARun, validMessages],
      by simp [chatCompletionsARun, validMessages], fun _ => rfl, ?_, ?_,
      fun _ => rfl, by simp [chatCompletionsERun, validMessages], ?_⟩
    · intro ms h; cases h
    · intro ms h; cases h
    · intro ms h; cases h
  | array ms =>
    cases ms with
    | nil =>
      refine ⟨fun _ => rfl, by simp [chatCompletionsARun, validMessages],
        by simp [chatCompletionsARun, validMessages], fun _ => rfl, ?_, ?_,
        fun _ => rfl, by simp [chatCompletionsERun, validMessages], ?_⟩
      · intro ms' h hne
        cases h
        exact absurd rfl hne
      · intro ms' h hne
        cases h
        exact absurd rfl hne
      · intro ms' h hne
        cases h
        exact absurd rfl hne
    | cons a l =>
      have hms : (a :: l).isEmpty = false := rfl
      have hv : validMessages (MessagesField.array (a :: l)) = true := rfl
      have hA := chatA_valid_not400 env model st (a :: l) hms
      have hE := chatE_valid_not400 env model st order (a :: l) hms
      refine ⟨?_, ?_, ?_, ?_, ?_, ?_, ?_, ?_, ?_⟩
      · intro h; rw [hv] at h; cases h
      · simp [hv, hA.1]
      · simp [hv, hA.2]
      · intro h; rw [hv] at h; cases h
      · intro ms' h _ hwf
        cases h
        simp [chatCompletionsCRun, hms, hwf]
      · intro ms' h _ hwf
        cases h
        exact chatC_valid_trace env model st (a :: l) hms hwf
      · intro h; rw [hv] at h; cases h
      · simp [hv, hE.1]
      · intro ms' h _ ho
        cases h
        exact hE.2 ho

/-- C8 counterexample: variant C's endpoint (cited by the claim at part_000
lines 427-435) answers 400 `invalid_request_error` without invoking any
provider for a request whose `messages` field IS a nonempty array — one
whose single message has an empty content — so the no-invocation cases are
not exactly the missing/non-array/empty cases. -/
theorem c8_counterexample :
    chatCompletionsCRun ⟨MessagesField.array [⟨"user", ""⟩], none, false⟩ envDown
      = (⟨400, ResponseBody.errJson "Invalid message format: role and content are required"
          (some "invalid_request_error") none⟩, [])
    ∧ validMessages (MessagesField.array [⟨"user", ""⟩]) = true :=
  ⟨by decide, by decide⟩

/-- Witness for C8 (amended): a request without `messages` is answered 400
with no provider invoked, in variants A and E alike, and a valid request
invokes some provider in both. -/
theorem c8_amended_witness :
    chatCompletionsARun ⟨MessagesField.absent, none, false⟩ envDown
      = (⟨400, ResponseBody.errJson "messages array required"
          (some "invalid_request_error") none⟩, [])
    ∧ (chatCompletionsARun ⟨MessagesField.array m0, none, false⟩ envDown).2 ≠ []
    ∧ chatCompletionsERun orderE0 ⟨MessagesField.absent, none, false⟩ envDown
      = (⟨400, ResponseBody.errJson "Invalid request: messages array is required"
          (some "invalid_request_error") none⟩, [])
    ∧ (chatCompletionsERun orderE0 ⟨MessagesField.array m0, none, false⟩ envDown).2 ≠ [] := by
  have ha := c8_amended envDown MessagesField.absent none false orderE0
  have hm := c8_amended envDown (MessagesField.array m0) none false orderE0
  refine ⟨ha.1 (by decide), ?_, ha.2.2.2.2.2.2.1 (by decide),
    hm.2.2.2.2.2.2.2.2 m0 rfl (by decide) (by decide)⟩
  intro hx
  have h2 := hm.2.2.1.mp hx
  exact absurd h2 (by decide)

/-- C9: variant A's DeepInfra handler answers the literal sentinel
`'No response'` when the HTTP call is ok but the content field is absent
from the parsed body; that string passes the router's non-empty check, so
the router returns it as the success — invoking no later provider even
though one would have answered — and the client receives `'No response'` as
the assistant content. -/
theorem c9_no_response_sentinel :
    deepInfraHandlerA (FetchOutcome.okJson none) = Except.ok "No response"
    ∧ acceptA "No response" = true
    ∧ tryProvidersARun env9 m0 none = (Except.ok "No response", ["DeepInfra"])
    ∧ (chatCompletionsARun ⟨MessagesField.array m0, none, false⟩ env9).1
        = ⟨200, ResponseBody.chatJson "gpt-3.5-turbo" "No response" "stop"⟩ :=
  ⟨by decide, by decide, by decide, by decide⟩

/-- C10: GET /v1/models of variants A and D answers exactly one entry per
distinct model id across the enabled providers — the answered ids are
duplicate-free and coincide with the ids of the flat per-provider list —
and each kept entry's `owned_by` is the lowercase name of the provider
occurring last in registry order among those listing that id (for example
the Mixtral model, listed by three variant-A providers, is owned by
`huggingface`, the last of them). -/
theorem c10_models_unique_last_owner :
    (modelsEndpointA.map ModelEntry.id).Nodup
    ∧ (∀ e ∈ modelsEndpointA, e.id ∈ allModelsA.map ModelEntry.id)
    ∧ (∀ a ∈ allModelsA, a.id ∈ modelsEndpointA.map ModelEntry.id)
    ∧ (∀ e ∈ modelsEndpointA, lastOwner providersA e.id = some e.owned_by)
    ∧ (⟨"mistralai/Mixtral-8x7B-Instruct-v0.1", "model", 1686935002, "huggingface"⟩ : ModelEntry)
        ∈ modelsEndpointA
    ∧ (modelsEndpointD.map ModelEntry.id).Nodup
    ∧ (∀ e ∈ modelsEndpointD, e.id ∈ allModelsD.map ModelEntry.id)
    ∧ (∀ a ∈ allModelsD, a.id ∈ modelsEndpointD.map ModelEntry.id)
    ∧ (∀ e ∈ modelsEndpointD, lastOwner providersD e.id = some e.owned_by) :=
  ⟨by decide, by decide, by decide, by decide, by decide,
   by decide, by decide, by decide, by decide⟩
